import Mathlib

/-!
Shallow embedding of the FastAPI/SQLAlchemy CRUD service in `src/main.py`.

The service exposes CRUD endpoints for two independent tables, `students`
and `teachers`.  The database is modelled as an explicit state: each table
is an association list from the integer primary key to the row's non-id
columns, together with the next value of the store's identity sequence
(PostgreSQL serial: fresh ids, never reused within the store's lifetime).

Request bodies are modelled at the JSON level (`JVal`), and the pydantic
schemas (`StudentCreate`, `StudentUpdate`, ...) as validation functions
from raw JSON fields to typed records.  `StudentUpdate` distinguishes an
unset field (pydantic `exclude_unset`) from a field explicitly set to
`null`: a field of the update record has type `Option (Option τ)`, where
`none` means unset, `some none` means explicitly null, and `some (some v)`
a typed value.  Writing `null` into a `nullable=False` column makes the
commit fail with a store-level constraint fault (modelled by
`Resp.fault`); the session is discarded, so the table is unchanged.
-/

namespace CrudService

/-- A JSON scalar value, as far as the service's schemas can observe it. -/
inductive JVal where
  | null
  | str (s : String)
  | int (n : Int)
deriving DecidableEq

/-- HTTP outcome of a handler: a success with a status code and body, an
HTTP error with a status code and a `detail` message, or a store-level
fault (uncaught exception, HTTP 500-class). -/
inductive Resp (α : Type) where
  | ok (status : Nat) (body : α)
  | err (status : Nat) (detail : String)
  | fault
deriving DecidableEq

/-- Non-id columns of the `students` table (`name`, `age`, `grade`), all
declared `nullable=False` in `main.py`. -/
structure StudentRow where
  name : String
  age : Int
  grade : String
deriving DecidableEq

/-- Non-id columns of the `teachers` table (`name`, `subject`,
`experience`), all declared `nullable=False` in `main.py`. -/
structure TeacherRow where
  name : String
  subject : String
  experience : Int
deriving DecidableEq

/-- The `StudentOut` response schema: the row together with its id. -/
structure StudentOut where
  id : Nat
  name : String
  age : Int
  grade : String
deriving DecidableEq

/-- The `TeacherOut` response schema: the row together with its id. -/
structure TeacherOut where
  id : Nat
  name : String
  subject : String
  experience : Int
deriving DecidableEq

/-- The `StudentCreate` request schema: all three fields required. -/
structure StudentCreate where
  name : String
  age : Int
  grade : String
deriving DecidableEq

/-- The `TeacherCreate` request schema: all three fields required. -/
structure TeacherCreate where
  name : String
  subject : String
  experience : Int
deriving DecidableEq

/-- The `StudentUpdate` request schema after validation.  Each field:
`none` = not present in the body, `some none` = present and `null`,
`some (some v)` = present with value `v`. -/
structure StudentUpdate where
  name : Option (Option String)
  age : Option (Option Int)
  grade : Option (Option String)
deriving DecidableEq

/-- The `TeacherUpdate` request schema after validation, with the same
encoding of unset / null / value as `StudentUpdate`. -/
structure TeacherUpdate where
  name : Option (Option String)
  subject : Option (Option String)
  experience : Option (Option Int)
deriving DecidableEq

/-- The database state: the two tables as association lists keyed by the
primary key, plus the next value of each table's identity sequence. -/
structure DB where
  students : List (Nat × StudentRow)
  teachers : List (Nat × TeacherRow)
  nextStudentId : Nat
  nextTeacherId : Nat
deriving DecidableEq

/-- `db.get(Model, i)`: primary-key lookup in a table. -/
def dbGet : List (Nat × β) → Nat → Option β
  | [], _ => none
  | p :: l, i => if p.1 = i then some p.2 else dbGet l i

/-- `UPDATE ... WHERE id = i`: replace the row stored under key `i`,
leaving every other row untouched. -/
def dbReplace : List (Nat × β) → Nat → β → List (Nat × β)
  | [], _, _ => []
  | p :: l, i, r => if p.1 = i then (i, r) :: dbReplace l i r else p :: dbReplace l i r

/-- `DELETE FROM ... WHERE id = i`: remove the rows with key `i`. -/
def dbDelete : List (Nat × β) → Nat → List (Nat × β)
  | [], _ => []
  | p :: l, i => if p.1 = i then dbDelete l i else p :: dbDelete l i

/-- Well-formedness of the database state: every stored primary key is
below the corresponding identity sequence, so freshly assigned ids never
collide with existing rows.  This is the identity-generation guarantee of
the underlying store. -/
def DB.WF (db : DB) : Prop :=
  (∀ p ∈ db.students, p.1 < db.nextStudentId) ∧
  (∀ p ∈ db.teachers, p.1 < db.nextTeacherId)

/-- The fresh, empty database produced by the startup table creation. -/
def emptyDB : DB :=
  { students := [], teachers := [], nextStudentId := 1, nextTeacherId := 1 }

/-! ### Student endpoints (`main.py` lines 97-138) -/

/-- `GET /students/`: return every row of the table. -/
def read_students (db : DB) : Resp (List StudentOut) :=
  .ok 200 (db.students.map (fun p => ⟨p.1, p.2.name, p.2.age, p.2.grade⟩))

/-- `GET /students/{student_id}`: 404 if the row is absent, else 200. -/
def read_student (student_id : Nat) (db : DB) : Resp StudentOut :=
  match dbGet db.students student_id with
  | none => .err 404 "Student not found"
  | some r => .ok 200 ⟨student_id, r.name, r.age, r.grade⟩

/-- `POST /students/` after validation: insert a row under the next
sequence id and respond 201 with the full entity. -/
def create_student (student : StudentCreate) (db : DB) :
    Resp StudentOut × DB :=
  let i := db.nextStudentId
  (.ok 201 ⟨i, student.name, student.age, student.grade⟩,
   { db with
      students := db.students ++ [(i, ⟨student.name, student.age, student.grade⟩)],
      nextStudentId := i + 1 })

/-- `PUT /students/{student_id}` after validation: 404 if the row is
absent; otherwise overwrite exactly the fields present in the body
(`exclude_unset`).  A present `null` value is written into a
`nullable=False` column, so the commit fails and the session is discarded
with the table unchanged (`Resp.fault`). -/
def update_student (student_id : Nat) (student : StudentUpdate) (db : DB) :
    Resp StudentOut × DB :=
  match dbGet db.students student_id with
  | none => (.err 404 "Student not found", db)
  | some r =>
    match student.name.getD (some r.name), student.age.getD (some r.age),
        student.grade.getD (some r.grade) with
    | some n, some a, some g =>
      (.ok 200 ⟨student_id, n, a, g⟩,
       { db with students := dbReplace db.students student_id ⟨n, a, g⟩ })
    | _, _, _ => (.fault, db)

/-- `DELETE /students/{student_id}`: 404 if the row is absent; otherwise
remove it and respond 200 with the entity as it was before deletion. -/
def delete_student (student_id : Nat) (db : DB) : Resp StudentOut × DB :=
  match dbGet db.students student_id with
  | none => (.err 404 "Student not found", db)
  | some r =>
    (.ok 200 ⟨student_id, r.name, r.age, r.grade⟩,
     { db with students := dbDelete db.students student_id })

/-! ### Teacher endpoints (`main.py` lines 142-183) -/

/-- `GET /teachers/`: return every row of the table. -/
def read_teachers (db : DB) : Resp (List TeacherOut) :=
  .ok 200 (db.teachers.map (fun p => ⟨p.1, p.2.name, p.2.subject, p.2.experience⟩))

/-- `GET /teachers/{teacher_id}`: 404 if the row is absent, else 200. -/
def read_teacher (teacher_id : Nat) (db : DB) : Resp TeacherOut :=
  match dbGet db.teachers teacher_id with
  | none => .err 404 "Teacher not found"
  | some r => .ok 200 ⟨teacher_id, r.name, r.subject, r.experience⟩

/-- `POST /teachers/` after validation: insert a row under the next
sequence id and respond 201 with the full entity. -/
def create_teacher (teacher : TeacherCreate) (db : DB) :
    Resp TeacherOut × DB :=
  let i := db.nextTeacherId
  (.ok 201 ⟨i, teacher.name, teacher.subject, teacher.experience⟩,
   { db with
      teachers := db.teachers ++ [(i, ⟨teacher.name, teacher.subject, teacher.experience⟩)],
      nextTeacherId := i + 1 })

/-- `PUT /teachers/{teacher_id}` after validation: same shape as
`update_student`. -/
def update_teacher (teacher_id : Nat) (teacher : TeacherUpdate) (db : DB) :
    Resp TeacherOut × DB :=
  match dbGet db.teachers teacher_id with
  | none => (.err 404 "Teacher not found", db)
  | some r =>
    match teacher.name.getD (some r.name), teacher.subject.getD (some r.subject),
        teacher.experience.getD (some r.experience) with
    | some n, some s, some e =>
      (.ok 200 ⟨teacher_id, n, s, e⟩,
       { db with teachers := dbReplace db.teachers teacher_id ⟨n, s, e⟩ })
    | _, _, _ => (.fault, db)

/-- `DELETE /teachers/{teacher_id}`: 404 if the row is absent; otherwise
remove it and respond 200 with the entity as it was before deletion. -/
def delete_teacher (teacher_id : Nat) (db : DB) : Resp TeacherOut × DB :=
  match dbGet db.teachers teacher_id with
  | none => (.err 404 "Teacher not found", db)
  | some r =>
    (.ok 200 ⟨teacher_id, r.name, r.subject, r.experience⟩,
     { db with teachers := dbDelete db.teachers teacher_id })

/-! ### Request-body validation (pydantic schemas, `main.py` lines 31-74) -/

/-- A raw create request body for a student: each declared field is either
absent (`none`) or carries a JSON value. -/
structure RawStudentCreate where
  name : Option JVal
  age : Option JVal
  grade : Option JVal
deriving DecidableEq

/-- A raw update request body for a student, with the same shape. -/
structure RawStudentUpdate where
  name : Option JVal
  age : Option JVal
  grade : Option JVal
deriving DecidableEq

/-- Validation of a JSON value against pydantic type `str`. -/
def parseStr : JVal → Option String
  | .str s => some s
  | _ => none

/-- Validation of a JSON value against pydantic type `int`. -/
def parseInt : JVal → Option Int
  | .int n => some n
  | _ => none

/-- Validation of an optional, nullable field (`τ | None = None`):
an absent field is unset, `null` is accepted as an explicit null, and any
other value must validate against `τ`. -/
def parseOptField (p : JVal → Option τ) : Option JVal → Option (Option (Option τ))
  | none => some none
  | some .null => some (some none)
  | some v => (p v).map (fun x => some (some x))

/-- Validation of a raw body against `StudentCreate`: all three fields
required and typed (`name : str`, `age : int`, `grade : str`).  No
non-emptiness constraint is declared on `name`. -/
def validate_student_create (raw : RawStudentCreate) : Option StudentCreate :=
  match raw.name, raw.age, raw.grade with
  | some n, some a, some g =>
    match parseStr n, parseInt a, parseStr g with
    | some n, some a, some g => some ⟨n, a, g⟩
    | _, _, _ => none
  | _, _, _ => none

/-- Validation of a raw body against `StudentUpdate`: every field optional
and nullable. -/
def validate_student_update (raw : RawStudentUpdate) : Option StudentUpdate :=
  match parseOptField parseStr raw.name, parseOptField parseInt raw.age,
      parseOptField parseStr raw.grade with
  | some n, some a, some g => some ⟨n, a, g⟩
  | _, _, _ => none

/-- `POST /students/` from the raw body: a body failing validation is
rejected with a 422 before any store operation. -/
def post_student (raw : RawStudentCreate) (db : DB) : Resp StudentOut × DB :=
  match validate_student_create raw with
  | none => (.err 422 "validation error", db)
  | some s => create_student s db

/-- `PUT /students/{student_id}` from the raw body: a body failing
validation is rejected with a 422 before any store operation. -/
def put_student (student_id : Nat) (raw : RawStudentUpdate) (db : DB) :
    Resp StudentOut × DB :=
  match validate_student_update raw with
  | none => (.err 422 "validation error", db)
  | some u => update_student student_id u db

/-! ### Lemmas about the primitive table operations -/

theorem dbGet_append_fresh {l : List (Nat × β)} {i : Nat} {r : β}
    (h : ∀ p ∈ l, p.1 ≠ i) : dbGet (l ++ [(i, r)]) i = some r := by
  induction l with
  | nil => simp [dbGet]
  | cons a l ih =>
    have ha : a.1 ≠ i := h a (List.mem_cons_self a l)
    simpa [dbGet, ha] using ih (fun p hp => h p (List.mem_cons_of_mem a hp))

theorem dbGet_dbDelete_self {l : List (Nat × β)} {i : Nat} :
    dbGet (dbDelete l i) i = none := by
  induction l with
  | nil => rfl
  | cons a l ih =>
    by_cases ha : a.1 = i
    · simpa [dbDelete, ha] using ih
    · simpa [dbDelete, dbGet, ha] using ih

theorem dbGet_dbDelete_ne {l : List (Nat × β)} {i j : Nat} (h : j ≠ i) :
    dbGet (dbDelete l i) j = dbGet l j := by
  induction l with
  | nil => rfl
  | cons a l ih =>
    by_cases ha : a.1 = i
    · have haj : a.1 ≠ j := fun hj => h (hj ▸ ha)
      simpa [dbDelete, dbGet, ha, haj, Ne.symm h] using ih
    · by_cases haj : a.1 = j
      · simp [dbDelete, dbGet, ha, haj, h]
      · simpa [dbDelete, dbGet, ha, haj] using ih

theorem dbGet_dbReplace_self {l : List (Nat × β)} {i : Nat} {r : β} :
    dbGet (dbReplace l i r) i = (dbGet l i).map (fun _ => r) := by
  induction l with
  | nil => rfl
  | cons a l ih =>
    by_cases ha : a.1 = i
    · simp [dbReplace, dbGet, ha]
    · simpa [dbReplace, dbGet, ha] using ih

theorem dbGet_dbReplace_ne {l : List (Nat × β)} {i j : Nat} {r : β} (h : j ≠ i) :
    dbGet (dbReplace l i r) j = dbGet l j := by
  induction l with
  | nil => rfl
  | cons a l ih =>
    by_cases ha : a.1 = i
    · simpa [dbReplace, dbGet, ha, Ne.symm h] using ih
    · by_cases haj : a.1 = j
      · simp [dbReplace, dbGet, ha, haj, h]
      · simpa [dbReplace, dbGet, ha, haj] using ih

theorem dbReplace_keys {l : List (Nat × β)} {i : Nat} {r : β} :
    (dbReplace l i r).map Prod.fst = l.map Prod.fst := by
  induction l with
  | nil => rfl
  | cons a l ih =>
    by_cases ha : a.1 = i
    · simpa [dbReplace, ha] using ih
    · simpa [dbReplace, ha] using ih

/-! ### Claim theorems -/

/-- Claim C1: for every valid create payload (all required fields present
and correctly typed), the POST handler responds 201 with an entity whose
non-id fields equal the submitted fields, and a subsequent get by the
returned id responds 200 with an identical entity (same id and same field
values).  Stated for both students and teachers, on any well-formed
database state. -/
theorem claim_C1_create_then_get (db : DB) (hwf : DB.WF db)
    (raw : RawStudentCreate) (s : StudentCreate)
    (hs : validate_student_create raw = some s) (t : TeacherCreate) :
    (post_student raw db).1 = .ok 201 ⟨db.nextStudentId, s.name, s.age, s.grade⟩ ∧
    read_student db.nextStudentId (post_student raw db).2 =
      .ok 200 ⟨db.nextStudentId, s.name, s.age, s.grade⟩ ∧
    (create_teacher t db).1 = .ok 201 ⟨db.nextTeacherId, t.name, t.subject, t.experience⟩ ∧
    read_teacher db.nextTeacherId (create_teacher t db).2 =
      .ok 200 ⟨db.nextTeacherId, t.name, t.subject, t.experience⟩ := by
  have hfs : ∀ p ∈ db.students, p.1 ≠ db.nextStudentId :=
    fun p hp => Nat.ne_of_lt (hwf.1 p hp)
  have hft : ∀ p ∈ db.teachers, p.1 ≠ db.nextTeacherId :=
    fun p hp => Nat.ne_of_lt (hwf.2 p hp)
  refine ⟨?_, ?_, rfl, ?_⟩
  · simp [post_student, hs, create_student]
  · simp [post_student, hs, create_student, read_student, dbGet_append_fresh hfs]
  · simp [create_teacher, read_teacher, dbGet_append_fresh hft]

/-- Witness for C1 at a concrete payload on the empty database. -/
theorem claim_C1_witness :
    (post_student ⟨some (.str "Ada"), some (.int 30), some (.str "A")⟩ emptyDB).1 =
      .ok 201 ⟨1, "Ada", 30, "A"⟩ ∧
    read_student 1 (post_student ⟨some (.str "Ada"), some (.int 30), some (.str "A")⟩ emptyDB).2 =
      .ok 200 ⟨1, "Ada", 30, "A"⟩ ∧
    (create_teacher ⟨"Bob", "Math", 5⟩ emptyDB).1 = .ok 201 ⟨1, "Bob", "Math", 5⟩ ∧
    read_teacher 1 (create_teacher ⟨"Bob", "Math", 5⟩ emptyDB).2 =
      .ok 200 ⟨1, "Bob", "Math", 5⟩ :=
  claim_C1_create_then_get emptyDB (by simp [DB.WF, emptyDB])
    ⟨some (.str "Ada"), some (.int 30), some (.str "A")⟩ ⟨"Ada", 30, "A"⟩ rfl
    ⟨"Bob", "Math", 5⟩

/-- Claim C3: for every id with no corresponding row, the get, update and
delete handlers each respond 404 with detail `"<Entity> not found"`, with
the entity name matching the route. -/
theorem claim_C3_not_found (db : DB) (sid tid : Nat)
    (u : StudentUpdate) (v : TeacherUpdate)
    (hs : dbGet db.students sid = none) (ht : dbGet db.teachers tid = none) :
    read_student sid db = .err 404 "Student not found" ∧
    update_student sid u db = (.err 404 "Student not found", db) ∧
    delete_student sid db = (.err 404 "Student not found", db) ∧
    read_teacher tid db = .err 404 "Teacher not found" ∧
    update_teacher tid v db = (.err 404 "Teacher not found", db) ∧
    delete_teacher tid db = (.err 404 "Teacher not found", db) := by
  refine ⟨?_, ?_, ?_, ?_, ?_, ?_⟩ <;>
    simp [read_student, update_student, delete_student, read_teacher,
      update_teacher, delete_teacher, hs, ht]

/-- Witness for C3 at concrete absent ids on the empty database. -/
theorem claim_C3_witness :
    read_student 5 emptyDB = .err 404 "Student not found" ∧
    update_student 5 ⟨none, none, none⟩ emptyDB = (.err 404 "Student not found", emptyDB) ∧
    delete_student 5 emptyDB = (.err 404 "Student not found", emptyDB) ∧
    read_teacher 7 emptyDB = .err 404 "Teacher not found" ∧
    update_teacher 7 ⟨none, none, none⟩ emptyDB = (.err 404 "Teacher not found", emptyDB) ∧
    delete_teacher 7 emptyDB = (.err 404 "Teacher not found", emptyDB) :=
  claim_C3_not_found emptyDB 5 7 ⟨none, none, none⟩ ⟨none, none, none⟩ rfl rfl

/-- Claim C4: for every id with no corresponding row and every update
body, the update handler returns 404 and the database state is returned
unchanged: no row is created and no existing row is modified. -/
theorem claim_C4_update_absent (db : DB) (sid tid : Nat)
    (u : StudentUpdate) (v : TeacherUpdate)
    (hs : dbGet db.students sid = none) (ht : dbGet db.teachers tid = none) :
    update_student sid u db = (.err 404 "Student not found", db) ∧
    update_teacher tid v db = (.err 404 "Teacher not found", db) := by
  simp [update_student, update_teacher, hs, ht]

/-- Witness for C4 at concrete absent ids and bodies setting every field. -/
theorem claim_C4_witness :
    update_student 3 ⟨some (some "Zed"), some (some 9), some (some "B")⟩ emptyDB =
      (.err 404 "Student not found", emptyDB) ∧
    update_teacher 4 ⟨some (some "Eve"), some (some "Art"), some (some 2)⟩ emptyDB =
      (.err 404 "Teacher not found", emptyDB) :=
  claim_C4_update_absent emptyDB 3 4 _ _ rfl rfl

/-- Claim C5: for every id whose row exists, the delete handler removes
that row (and only that row) and responds 200 with the entity as it was
immediately before deletion; deleting the same id twice yields 200 for
the first request and 404 for the second. -/
theorem claim_C5_delete (db : DB) (i j : Nat) (r : StudentRow) (t : TeacherRow)
    (hr : dbGet db.students i = some r) (ht : dbGet db.teachers j = some t) :
    delete_student i db =
      (.ok 200 ⟨i, r.name, r.age, r.grade⟩,
       { db with students := dbDelete db.students i }) ∧
    dbGet (delete_student i db).2.students i = none ∧
    (∀ k, k ≠ i → dbGet (delete_student i db).2.students k = dbGet db.students k) ∧
    (delete_student i (delete_student i db).2).1 = .err 404 "Student not found" ∧
    delete_teacher j db =
      (.ok 200 ⟨j, t.name, t.subject, t.experience⟩,
       { db with teachers := dbDelete db.teachers j }) ∧
    dbGet (delete_teacher j db).2.teachers j = none ∧
    (delete_teacher j (delete_teacher j db).2).1 = .err 404 "Teacher not found" := by
  refine ⟨?_, ?_, ?_, ?_, ?_, ?_, ?_⟩
  · simp [delete_student, hr]
  · simp [delete_student, hr, dbGet_dbDelete_self]
  · intro k hk
    simp [delete_student, hr, dbGet_dbDelete_ne hk]
  · simp [delete_student, hr, dbGet_dbDelete_self]
  · simp [delete_teacher, ht]
  · simp [delete_teacher, ht, dbGet_dbDelete_self]
  · simp [delete_teacher, ht, dbGet_dbDelete_self]

/-- Witness for C5 on a database holding one student and one teacher. -/
theorem claim_C5_witness :
    delete_student 1 (⟨[(1, ⟨"Ada", 30, "A"⟩)], [(1, ⟨"Bob", "Math", 5⟩)], 2, 2⟩ : DB) =
      (.ok 200 ⟨1, "Ada", 30, "A"⟩,
       { (⟨[(1, ⟨"Ada", 30, "A"⟩)], [(1, ⟨"Bob", "Math", 5⟩)], 2, 2⟩ : DB) with
          students := dbDelete [(1, (⟨"Ada", 30, "A"⟩ : StudentRow))] 1 }) ∧
    dbGet (delete_student 1 (⟨[(1, ⟨"Ada", 30, "A"⟩)], [(1, ⟨"Bob", "Math", 5⟩)], 2, 2⟩ : DB)).2.students 1 = none ∧
    (∀ k, k ≠ 1 → dbGet (delete_student 1 (⟨[(1, ⟨"Ada", 30, "A"⟩)], [(1, ⟨"Bob", "Math", 5⟩)], 2, 2⟩ : DB)).2.students k =
      dbGet ([(1, (⟨"Ada", 30, "A"⟩ : StudentRow))]) k) ∧
    (delete_student 1 (delete_student 1 (⟨[(1, ⟨"Ada", 30, "A"⟩)], [(1, ⟨"Bob", "Math", 5⟩)], 2, 2⟩ : DB)).2).1 =
      .err 404 "Student not found" ∧
    delete_teacher 1 (⟨[(1, ⟨"Ada", 30, "A"⟩)], [(1, ⟨"Bob", "Math", 5⟩)], 2, 2⟩ : DB) =
      (.ok 200 ⟨1, "Bob", "Math", 5⟩,
       { (⟨[(1, ⟨"Ada", 30, "A"⟩)], [(1, ⟨"Bob", "Math", 5⟩)], 2, 2⟩ : DB) with
          teachers := dbDelete [(1, (⟨"Bob", "Math", 5⟩ : TeacherRow))] 1 }) ∧
    dbGet (delete_teacher 1 (⟨[(1, ⟨"Ada", 30, "A"⟩)], [(1, ⟨"Bob", "Math", 5⟩)], 2, 2⟩ : DB)).2.teachers 1 = none ∧
    (delete_teacher 1 (delete_teacher 1 (⟨[(1, ⟨"Ada", 30, "A"⟩)], [(1, ⟨"Bob", "Math", 5⟩)], 2, 2⟩ : DB)).2).1 =
      .err 404 "Teacher not found" :=
  claim_C5_delete (⟨[(1, ⟨"Ada", 30, "A"⟩)], [(1, ⟨"Bob", "Math", 5⟩)], 2, 2⟩ : DB)
    1 1 ⟨"Ada", 30, "A"⟩ ⟨"Bob", "Math", 5⟩ rfl rfl

/-- Claim C2: for every existing entity and every update body whose
present fields carry typed (non-null) values, the PUT handler overwrites
exactly the fields present in the body and leaves every field absent from
the body unchanged.  Each field of the body is given as an `Option`
(`none` = absent, `some v` = present with value `v`); the resulting row
takes the body's value where present and the prior value where absent.
In particular, updating only `age` on a student leaves `name` and `grade`
equal to their prior values. -/
theorem claim_C2_partial_update (db : DB) (i j : Nat) (r : StudentRow) (t : TeacherRow)
    (nOpt : Option String) (aOpt : Option Int) (gOpt : Option String)
    (mOpt : Option String) (sOpt : Option String) (eOpt : Option Int)
    (hr : dbGet db.students i = some r) (ht : dbGet db.teachers j = some t) :
    update_student i ⟨nOpt.map some, aOpt.map some, gOpt.map some⟩ db =
      (.ok 200 ⟨i, nOpt.getD r.name, aOpt.getD r.age, gOpt.getD r.grade⟩,
       { db with students :=
          (dbReplace db.students i ⟨nOpt.getD r.name, aOpt.getD r.age, gOpt.getD r.grade⟩) }) ∧
    update_teacher j ⟨mOpt.map some, sOpt.map some, eOpt.map some⟩ db =
      (.ok 200 ⟨j, mOpt.getD t.name, sOpt.getD t.subject, eOpt.getD t.experience⟩,
       { db with teachers :=
          (dbReplace db.teachers j ⟨mOpt.getD t.name, sOpt.getD t.subject, eOpt.getD t.experience⟩) }) := by
  constructor
  · cases nOpt <;> cases aOpt <;> cases gOpt <;> simp [update_student, hr]
  · cases mOpt <;> cases sOpt <;> cases eOpt <;> simp [update_teacher, ht]

/-- Witness for C2: updating only `age` (resp. only `subject`) on a
one-row table keeps the other fields at their prior values. -/
theorem claim_C2_witness :
    update_student 1 ⟨none, some (some 31), none⟩
      (⟨[(1, ⟨"Ada", 30, "A"⟩)], [(1, ⟨"Bob", "Math", 5⟩)], 2, 2⟩ : DB) =
      (.ok 200 ⟨1, "Ada", 31, "A"⟩,
       (⟨[(1, ⟨"Ada", 31, "A"⟩)], [(1, ⟨"Bob", "Math", 5⟩)], 2, 2⟩ : DB)) ∧
    update_teacher 1 ⟨none, some (some "Physics"), none⟩
      (⟨[(1, ⟨"Ada", 30, "A"⟩)], [(1, ⟨"Bob", "Math", 5⟩)], 2, 2⟩ : DB) =
      (.ok 200 ⟨1, "Bob", "Physics", 5⟩,
       (⟨[(1, ⟨"Ada", 30, "A"⟩)], [(1, ⟨"Bob", "Physics", 5⟩)], 2, 2⟩ : DB)) :=
  claim_C2_partial_update
    (⟨[(1, ⟨"Ada", 30, "A"⟩)], [(1, ⟨"Bob", "Math", 5⟩)], 2, 2⟩ : DB) 1 1
    ⟨"Ada", 30, "A"⟩ ⟨"Bob", "Math", 5⟩
    none (some 31) none none (some "Physics") none rfl rfl

/-- Claim C6: for every database state, the list handlers respond 200
with a sequence whose underlying set is exactly the set of rows currently
in the corresponding table, and the empty sequence when the table has no
rows. -/
theorem claim_C6_list_all (db : DB) :
    ∃ sbody tbody,
      read_students db = .ok 200 sbody ∧
      (∀ e : StudentOut, e ∈ sbody ↔ (e.id, ⟨e.name, e.age, e.grade⟩) ∈ db.students) ∧
      (db.students = [] → sbody = []) ∧
      read_teachers db = .ok 200 tbody ∧
      (∀ e : TeacherOut, e ∈ tbody ↔ (e.id, ⟨e.name, e.subject, e.experience⟩) ∈ db.teachers) ∧
      (db.teachers = [] → tbody = []) := by
  refine ⟨_, _, rfl, ?_, ?_, rfl, ?_, ?_⟩
  · intro e
    constructor
    · intro he
      rw [List.mem_map] at he
      obtain ⟨⟨k, r⟩, hp, he⟩ := he
      cases he
      exact hp
    · intro he
      rw [List.mem_map]
      exact ⟨(e.id, ⟨e.name, e.age, e.grade⟩), he, rfl⟩
  · intro h
    simp [h]
  · intro e
    constructor
    · intro he
      rw [List.mem_map] at he
      obtain ⟨⟨k, r⟩, hp, he⟩ := he
      cases he
      exact hp
    · intro he
      rw [List.mem_map]
      exact ⟨(e.id, ⟨e.name, e.subject, e.experience⟩), he, rfl⟩
  · intro h
    simp [h]

/-- Witness for C6 on the empty database. -/
theorem claim_C6_witness :
    ∃ sbody tbody,
      read_students emptyDB = .ok 200 sbody ∧
      (∀ e : StudentOut, e ∈ sbody ↔ (e.id, ⟨e.name, e.age, e.grade⟩) ∈ emptyDB.students) ∧
      (emptyDB.students = [] → sbody = []) ∧
      read_teachers emptyDB = .ok 200 tbody ∧
      (∀ e : TeacherOut, e ∈ tbody ↔ (e.id, ⟨e.name, e.subject, e.experience⟩) ∈ emptyDB.teachers) ∧
      (emptyDB.teachers = [] → tbody = []) :=
  claim_C6_list_all emptyDB

/-- Counterexample to C7 as stated: the create payload
`{name: "", age: 7, grade: "B"}` has `name` equal to the empty string,
yet it passes validation (`StudentCreate` declares `name : str` with no
non-emptiness constraint) and the POST handler responds 201 and inserts
a row, instead of failing with a 422 before any store operation. -/
theorem claim_C7_counterexample :
    validate_student_create ⟨some (.str ""), some (.int 7), some (.str "B")⟩ =
      some ⟨"", 7, "B"⟩ ∧
    post_student ⟨some (.str ""), some (.int 7), some (.str "B")⟩ emptyDB =
      (.ok 201 ⟨1, "", 7, "B"⟩, (⟨[(1, ⟨"", 7, "B"⟩)], [], 2, 1⟩ : DB)) :=
  ⟨rfl, rfl⟩

/-- Claim C7 (amended): for every create request whose body is missing a
required field or carries a field that fails its declared type, validation
fails with a 422-class response before any store operation is performed
and the database is unchanged.  (A `name` equal to the empty string is
accepted: see the counterexample.) -/
theorem claim_C7_amended (raw : RawStudentCreate) (db : DB)
    (h : raw.name.bind parseStr = none ∨ raw.age.bind parseInt = none ∨
      raw.grade.bind parseStr = none) :
    post_student raw db = (.err 422 "validation error", db) := by
  have hv : validate_student_create raw = none := by
    obtain ⟨nm, ag, gr⟩ := raw
    rcases nm with _ | nv
    · rfl
    · rcases ag with _ | av
      · rfl
      · rcases gr with _ | gv
        · rfl
        · simp only [Option.some_bind] at h
          cases hn : parseStr nv <;> cases ha : parseInt av <;>
            cases hg : parseStr gv <;>
            simp_all [validate_student_create]
  simp [post_student, hv]

/-- Witness for the amended C7: a body missing `name` is rejected with a
422 and the database is unchanged. -/
theorem claim_C7_witness :
    post_student ⟨none, some (.int 3), some (.str "A")⟩ emptyDB =
      (.err 422 "validation error", emptyDB) :=
  claim_C7_amended ⟨none, some (.int 3), some (.str "A")⟩ emptyDB (Or.inl rfl)

/-- Apply a sequence of student PUT requests (id and body pairs),
threading the database state. -/
def applyStudentUpdates (us : List (Nat × StudentUpdate)) (db : DB) : DB :=
  us.foldl (fun d p => (update_student p.1 p.2 d).2) db

/-- Apply a sequence of teacher PUT requests (id and body pairs),
threading the database state. -/
def applyTeacherUpdates (vs : List (Nat × TeacherUpdate)) (db : DB) : DB :=
  vs.foldl (fun d p => (update_teacher p.1 p.2 d).2) db

theorem update_student_keys (i : Nat) (u : StudentUpdate) (db : DB) :
    (update_student i u db).2.students.map Prod.fst = db.students.map Prod.fst := by
  unfold update_student
  split
  · rfl
  · split
    · simpa using dbReplace_keys
    · rfl

theorem update_teacher_keys (j : Nat) (v : TeacherUpdate) (db : DB) :
    (update_teacher j v db).2.teachers.map Prod.fst = db.teachers.map Prod.fst := by
  unfold update_teacher
  split
  · rfl
  · split
    · simpa using dbReplace_keys
    · rfl

theorem applyStudentUpdates_keys (us : List (Nat × StudentUpdate)) (db : DB) :
    (applyStudentUpdates us db).students.map Prod.fst = db.students.map Prod.fst := by
  induction us generalizing db with
  | nil => rfl
  | cons p us ih => exact (ih (update_student p.1 p.2 db).2).trans (update_student_keys p.1 p.2 db)

theorem applyTeacherUpdates_keys (vs : List (Nat × TeacherUpdate)) (db : DB) :
    (applyTeacherUpdates vs db).teachers.map Prod.fst = db.teachers.map Prod.fst := by
  induction vs generalizing db with
  | nil => rfl
  | cons p vs ih => exact (ih (update_teacher p.1 p.2 db).2).trans (update_teacher_keys p.1 p.2 db)

theorem update_student_ok_id {i st : Nat} {u : StudentUpdate} {db : DB} {e : StudentOut}
    (h : (update_student i u db).1 = .ok st e) : e.id = i := by
  unfold update_student at h
  cases hq : dbGet db.students i with
  | none => simp [hq] at h
  | some r =>
    simp only [hq] at h
    cases hn : u.name.getD (some r.name) <;> cases ha : u.age.getD (some r.age) <;>
      cases hg : u.grade.getD (some r.grade) <;> simp only [hn, ha, hg] at h <;>
      (cases h) <;> rfl

theorem update_teacher_ok_id {j st : Nat} {v : TeacherUpdate} {db : DB} {f : TeacherOut}
    (h : (update_teacher j v db).1 = .ok st f) : f.id = j := by
  unfold update_teacher at h
  cases hq : dbGet db.teachers j with
  | none => simp [hq] at h
  | some r =>
    simp only [hq] at h
    cases hn : v.name.getD (some r.name) <;> cases hs : v.subject.getD (some r.subject) <;>
      cases he : v.experience.getD (some r.experience) <;> simp only [hn, hs, he] at h <;>
      (cases h) <;> rfl

/-- Claim C8: the entity's `id` is never changed by updates.  The update
schema carries no id field, a successful update responds with an entity
whose id equals the requested id, and any sequence of update requests
leaves the list of primary keys of the table exactly as it was. -/
theorem claim_C8_id_immutable (db : DB) (i st : Nat) (u : StudentUpdate) (e : StudentOut)
    (us : List (Nat × StudentUpdate)) (j st' : Nat) (v : TeacherUpdate) (f : TeacherOut)
    (vs : List (Nat × TeacherUpdate)) :
    ((update_student i u db).1 = .ok st e → e.id = i) ∧
    (applyStudentUpdates us db).students.map Prod.fst = db.students.map Prod.fst ∧
    ((update_teacher j v db).1 = .ok st' f → f.id = j) ∧
    (applyTeacherUpdates vs db).teachers.map Prod.fst = db.teachers.map Prod.fst :=
  ⟨update_student_ok_id, applyStudentUpdates_keys us db,
   update_teacher_ok_id, applyTeacherUpdates_keys vs db⟩

/-- Witness for C8 on a one-row table, with an update that succeeds. -/
theorem claim_C8_witness :
    ((update_student 1 ⟨none, some (some 31), none⟩
        (⟨[(1, ⟨"Ada", 30, "A"⟩)], [(1, ⟨"Bob", "Math", 5⟩)], 2, 2⟩ : DB)).1 =
      .ok 200 ⟨1, "Ada", 31, "A"⟩ → (⟨1, "Ada", 31, "A"⟩ : StudentOut).id = 1) ∧
    (applyStudentUpdates [(1, ⟨none, some (some 31), none⟩)]
        (⟨[(1, ⟨"Ada", 30, "A"⟩)], [(1, ⟨"Bob", "Math", 5⟩)], 2, 2⟩ : DB)).students.map Prod.fst =
      ([(1, (⟨"Ada", 30, "A"⟩ : StudentRow))]).map Prod.fst ∧
    ((update_teacher 1 ⟨none, none, some (some 6)⟩
        (⟨[(1, ⟨"Ada", 30, "A"⟩)], [(1, ⟨"Bob", "Math", 5⟩)], 2, 2⟩ : DB)).1 =
      .ok 200 ⟨1, "Bob", "Math", 6⟩ → (⟨1, "Bob", "Math", 6⟩ : TeacherOut).id = 1) ∧
    (applyTeacherUpdates [(1, ⟨none, none, some (some 6)⟩)]
        (⟨[(1, ⟨"Ada", 30, "A"⟩)], [(1, ⟨"Bob", "Math", 5⟩)], 2, 2⟩ : DB)).teachers.map Prod.fst =
      ([(1, (⟨"Bob", "Math", 5⟩ : TeacherRow))]).map Prod.fst :=
  claim_C8_id_immutable (⟨[(1, ⟨"Ada", 30, "A"⟩)], [(1, ⟨"Bob", "Math", 5⟩)], 2, 2⟩ : DB)
    1 200 ⟨none, some (some 31), none⟩ ⟨1, "Ada", 31, "A"⟩
    [(1, ⟨none, some (some 31), none⟩)]
    1 200 ⟨none, none, some (some 6)⟩ ⟨1, "Bob", "Math", 6⟩
    [(1, ⟨none, none, some (some 6)⟩)]

/-- Claim C9: every operation on a student route leaves the teachers
table (rows and identity sequence) unchanged, and every operation on a
teacher route leaves the students table unchanged. -/
theorem claim_C9_isolation (db : DB) (s : StudentCreate) (i : Nat) (u : StudentUpdate)
    (t : TeacherCreate) (j : Nat) (v : TeacherUpdate) :
    (create_student s db).2.teachers = db.teachers ∧
    (create_student s db).2.nextTeacherId = db.nextTeacherId ∧
    (update_student i u db).2.teachers = db.teachers ∧
    (update_student i u db).2.nextTeacherId = db.nextTeacherId ∧
    (delete_student i db).2.teachers = db.teachers ∧
    (delete_student i db).2.nextTeacherId = db.nextTeacherId ∧
    (create_teacher t db).2.students = db.students ∧
    (create_teacher t db).2.nextStudentId = db.nextStudentId ∧
    (update_teacher j v db).2.students = db.students ∧
    (update_teacher j v db).2.nextStudentId = db.nextStudentId ∧
    (delete_teacher j db).2.students = db.students ∧
    (delete_teacher j db).2.nextStudentId = db.nextStudentId := by
  refine ⟨rfl, rfl, ?_, ?_, ?_, ?_, rfl, rfl, ?_, ?_, ?_, ?_⟩ <;>
    simp only [update_student, delete_student, update_teacher, delete_teacher] <;>
    (repeat' split) <;> rfl

/-- Claim C10: for every existing student, a PUT body that explicitly
sets a field to `null` passes request validation (the update schema
declares every field optional and nullable), the handler then writes the
null into a `nullable=False` column, and the request ends in a
store-level constraint fault (not a 422); the row is not changed. -/
theorem claim_C10_null_update (db : DB) (i : Nat) (r : StudentRow)
    (raw : RawStudentUpdate) (u : StudentUpdate)
    (hv : validate_student_update raw = some u)
    (hnull : u.name = some none ∨ u.age = some none ∨ u.grade = some none)
    (hr : dbGet db.students i = some r) :
    put_student i raw db = (.fault, db) := by
  have key : update_student i u db = (.fault, db) := by
    obtain ⟨un, ua, ug⟩ := u
    unfold update_student
    rcases hnull with h | h | h <;> simp only at h <;> subst h <;> simp [hr]
  unfold put_student
  rw [hv]
  exact key

/-- Witness for C10: `{name: null}` on an existing student validates and
ends in a store fault with the table unchanged. -/
theorem claim_C10_witness :
    put_student 1 ⟨some .null, none, none⟩ (⟨[(1, ⟨"Ada", 30, "A"⟩)], [], 2, 1⟩ : DB) =
      (.fault, (⟨[(1, ⟨"Ada", 30, "A"⟩)], [], 2, 1⟩ : DB)) :=
  claim_C10_null_update (⟨[(1, ⟨"Ada", 30, "A"⟩)], [], 2, 1⟩ : DB) 1 ⟨"Ada", 30, "A"⟩
    ⟨some .null, none, none⟩ ⟨some none, none, none⟩ rfl (Or.inl rfl) rfl

end CrudService
